import Mathlib

/-!
# Verification of the GUID core (`src/guid.rs`)

A shallow embedding of the repository's `Guid` type and its operations.
Bytes are modelled as `Nat` values below 256, machine integers as `Nat`
with explicit reduction modulo the word size where the machine wraps.

The `const_sha1` crate used by `Guid::from_signature` is external to this
repository, so the standard SHA-1 algorithm it implements is embedded here
directly (five 32-bit digest words, big-endian message processing).
-/

/-- The modulus of 32-bit machine arithmetic. -/
def w32 : Nat := 4294967296

/-- Left rotation of a 32-bit word by `n` bits. -/
def rotl (n x : Nat) : Nat := (x * 2 ^ n + x / 2 ^ (32 - n)) % w32

/-- A SHA-1 digest (or running state): five 32-bit words, as produced in the
`data` field of the `const_sha1` crate's digest. -/
structure Sha1Digest where
  h0 : Nat
  h1 : Nat
  h2 : Nat
  h3 : Nat
  h4 : Nat
deriving DecidableEq

/-- Indexing `hash.data[i]` over the digest's five words. -/
def Sha1Digest.word (h : Sha1Digest) : Nat → Nat
  | 0 => h.h0
  | 1 => h.h1
  | 2 => h.h2
  | 3 => h.h3
  | _ => h.h4

/-- Big-endian 32-bit word assembled from four bytes. -/
def beWord (b0 b1 b2 b3 : Nat) : Nat := ((b0 * 256 + b1) * 256 + b2) * 256 + b3

/-- The sixteen initial message-schedule words of one 64-byte block. -/
def blockWords (block : List Nat) : Array Nat :=
  ((List.range 16).map (fun i =>
    beWord (block.getD (4 * i) 0) (block.getD (4 * i + 1) 0)
      (block.getD (4 * i + 2) 0) (block.getD (4 * i + 3) 0))).toArray

/-- Extends the message schedule from 16 to 80 words. -/
def extendWords (ws : Array Nat) : Array Nat :=
  (List.range 64).foldl (fun a i =>
    a.push (rotl 1 ((((a.getD (i + 13) 0) ^^^ (a.getD (i + 8) 0)) ^^^
      (a.getD (i + 2) 0)) ^^^ (a.getD i 0)))) ws

/-- One SHA-1 compression round on the `(a, b, c, d, e)` state. -/
def sha1Round (st : Nat × Nat × Nat × Nat × Nat) (i wi : Nat) :
    Nat × Nat × Nat × Nat × Nat :=
  match st with
  | (a, b, c, d, e) =>
    let f :=
      if i < 20 then (b &&& c) ||| ((b ^^^ 0xffffffff) &&& d)
      else if i < 40 then (b ^^^ c) ^^^ d
      else if i < 60 then ((b &&& c) ||| (b &&& d)) ||| (c &&& d)
      else (b ^^^ c) ^^^ d
    let k :=
      if i < 20 then 0x5a827999
      else if i < 40 then 0x6ed9eba1
      else if i < 60 then 0x8f1bbcdc
      else 0xca62c1d6
    ((rotl 5 a + f + e + k + wi) % w32, a, rotl 30 b, c, d)

/-- SHA-1 compression of one 64-byte block into the running digest. -/
def processBlock (h : Sha1Digest) (block : List Nat) : Sha1Digest :=
  let ws := extendWords (blockWords block)
  let fin := (List.range 80).foldl (fun st i => sha1Round st i (ws.getD i 0))
    (h.h0, h.h1, h.h2, h.h3, h.h4)
  { h0 := (h.h0 + fin.1) % w32
    h1 := (h.h1 + fin.2.1) % w32
    h2 := (h.h2 + fin.2.2.1) % w32
    h3 := (h.h3 + fin.2.2.2.1) % w32
    h4 := (h.h4 + fin.2.2.2.2) % w32 }

/-- Big-endian 8-byte encoding of the message bit length. -/
def lenBytes (n : Nat) : List Nat :=
  (List.range 8).map (fun i => (n >>> (8 * (7 - i))) % 256)

/-- SHA-1 padding: a `0x80` byte, zero bytes up to 56 modulo 64, then the
bit length. -/
def padMessage (msg : List Nat) : List Nat :=
  msg ++ [128] ++ List.replicate ((119 - msg.length % 64) % 64) 0 ++
    lenBytes (msg.length * 8)

/-- Iterates the compression over each 64-byte chunk; the fuel is the number
of chunks. -/
def sha1Blocks : Nat → Sha1Digest → List Nat → Sha1Digest
  | 0, h, _ => h
  | n + 1, h, l => sha1Blocks n (processBlock h (l.take 64)) (l.drop 64)

/-- SHA-1 of a byte sequence, as five 32-bit words (`const_sha1::sha1(...).data`). -/
def sha1 (msg : List Nat) : Sha1Digest :=
  let p := padMessage msg
  sha1Blocks (p.length / 64)
    { h0 := 0x67452301, h1 := 0xefcdab89, h2 := 0x98badcfe
      h3 := 0x10325476, h4 := 0xc3d2e1f0 } p

/-- The `Guid` struct of `src/guid.rs`: fields `data1 : u32`, `data2 : u16`,
`data3 : u16` and `data4 : [u8; 8]`, each byte and word as a `Nat`. -/
structure Guid where
  data1 : Nat
  data2 : Nat
  data3 : Nat
  data4 : List Nat
deriving DecidableEq

/-- `Guid::zeroed`: the all-zero byte pattern. -/
def Guid.zeroed : Guid :=
  { data1 := 0, data2 := 0, data3 := 0, data4 := [0, 0, 0, 0, 0, 0, 0, 0] }

/-- `Guid::from_values`: direct construction from the four fields. -/
def Guid.from_values (data1 data2 data3 : Nat) (data4 : List Nat) : Guid :=
  { data1, data2, data3, data4 }

/-- Modelled from the spec: `crate::ConstString` (declared in this repository
outside the sources given here) is an arbitrary-length byte sequence;
`get i` reads the byte at index `i`, and since the spec gives
`from_signature` no failure path even for the empty sequence, an
out-of-range read is modelled as byte `0`.  `push_other` is sequence
concatenation, embedded below as `List.append`. -/
def constStringGet (s : List Nat) (i : Nat) : Nat := s.getD i 0

/-- Rust `u32::to_be_bytes`: the four big-endian bytes of a 32-bit word. -/
def toBeBytes32 (w : Nat) : List Nat :=
  [(w >>> 24) % 256, (w >>> 16) % 256, (w >>> 8) % 256, w % 256]

/-- Rust `u16::from_be_bytes`: a 16-bit word from two big-endian bytes. -/
def u16FromBe (b0 b1 : Nat) : Nat := b0 * 256 + b1

/-- The fixed 16-byte namespace constant hashed in front of the signature in
`Guid::from_signature`. -/
def namespaceBytes : List Nat :=
  [0x11, 0xf4, 0x7a, 0xd5, 0x7b, 0x73, 0x42, 0xc0,
   0xab, 0xae, 0x87, 0x8b, 0x1e, 0x16, 0xad, 0xee]

/-- `Guid::from_signature` of `src/guid.rs`: hashes the namespace constant
followed by the signature and assembles the fields from the digest words,
with the version and variant markers forced. -/
def Guid.from_signature (signature : List Nat) : Guid :=
  let first := constStringGet signature 0
  let data := namespaceBytes ++ signature
  let hash := sha1 data
  let second := toBeBytes32 (hash.word 1)
  let data3a := u16FromBe (second.getD 2 0) (second.getD 3 0)
  let data3 := (data3a &&& 0x0fff) ||| (5 <<< 12)
  let third := toBeBytes32 (hash.word 2)
  let fourth := toBeBytes32 (hash.word 3)
  Guid.from_values first (u16FromBe (second.getD 0 0) (second.getD 1 0)) data3
    [((third.getD 0 0) &&& 0x3f) ||| 0x80, third.getD 1 0, third.getD 2 0,
     third.getD 3 0, fourth.getD 0 0, fourth.getD 1 0, fourth.getD 2 0,
     fourth.getD 3 0]

/-- `AbiTransferable::get_abi` for `Guid`: returns `self.clone()`, the value
itself. -/
def Guid.get_abi (g : Guid) : Guid := g

/-- `HexReader::next_u8` of `src/guid.rs` (and `next_u16`/`next_u32`, which
merely widen the same byte): the hex value of one ASCII byte, with the
invalid-character failure path as `none`. -/
def hexVal (b : Nat) : Option Nat :=
  if 48 ≤ b ∧ b ≤ 57 then some (b - 48)
  else if 65 ≤ b ∧ b ≤ 70 then some (10 + b - 65)
  else if 97 ≤ b ∧ b ≤ 102 then some (10 + b - 97)
  else none

/-- `impl From<&str> for Guid`: parses the 36-character hyphenated form with
the `assert!`-style failure paths as `none`.  The Rust code consumes the
bytes with an iterator, strictly left to right, after asserting the length
is exactly 36; the byte consumed by the `k`-th read is therefore byte `k`
of the string, so each sequential read is embedded as an indexed read at
its position. -/
def Guid.parse (value : List Nat) : Option Guid :=
  if value.length = 36 then
    match hexVal (value.getD 0 0) with
    | none => none
    | some a0 =>
    match hexVal (value.getD 1 0) with
    | none => none
    | some a1 =>
    match hexVal (value.getD 2 0) with
    | none => none
    | some a2 =>
    match hexVal (value.getD 3 0) with
    | none => none
    | some a3 =>
    match hexVal (value.getD 4 0) with
    | none => none
    | some a4 =>
    match hexVal (value.getD 5 0) with
    | none => none
    | some a5 =>
    match hexVal (value.getD 6 0) with
    | none => none
    | some a6 =>
    match hexVal (value.getD 7 0) with
    | none => none
    | some a7 =>
    let a := ((a0 * 16 + a1) <<< 24) + ((a2 * 16 + a3) <<< 16) +
      ((a4 * 16 + a5) <<< 8) + a6 * 16 + a7
    if value.getD 8 0 = 45 then
      match hexVal (value.getD 9 0) with
      | none => none
      | some b0 =>
      match hexVal (value.getD 10 0) with
      | none => none
      | some b1 =>
      match hexVal (value.getD 11 0) with
      | none => none
      | some b2 =>
      match hexVal (value.getD 12 0) with
      | none => none
      | some b3 =>
      let b := ((b0 * 16 + b1) <<< 8) + b2 * 16 + b3
      if value.getD 13 0 = 45 then
        match hexVal (value.getD 14 0) with
        | none => none
        | some c0 =>
        match hexVal (value.getD 15 0) with
        | none => none
        | some c1 =>
        match hexVal (value.getD 16 0) with
        | none => none
        | some c2 =>
        match hexVal (value.getD 17 0) with
        | none => none
        | some c3 =>
        let c := ((c0 * 16 + c1) <<< 8) + c2 * 16 + c3
        if value.getD 18 0 = 45 then
          match hexVal (value.getD 19 0) with
          | none => none
          | some d0 =>
          match hexVal (value.getD 20 0) with
          | none => none
          | some d1 =>
          let d := d0 * 16 + d1
          match hexVal (value.getD 21 0) with
          | none => none
          | some e0 =>
          match hexVal (value.getD 22 0) with
          | none => none
          | some e1 =>
          let e := e0 * 16 + e1
          if value.getD 23 0 = 45 then
            match hexVal (value.getD 24 0) with
            | none => none
            | some f0 =>
            match hexVal (value.getD 25 0) with
            | none => none
            | some f1 =>
            match hexVal (value.getD 26 0) with
            | none => none
            | some g0 =>
            match hexVal (value.getD 27 0) with
            | none => none
            | some g1 =>
            match hexVal (value.getD 28 0) with
            | none => none
            | some h0 =>
            match hexVal (value.getD 29 0) with
            | none => none
            | some h1 =>
            match hexVal (value.getD 30 0) with
            | none => none
            | some i0 =>
            match hexVal (value.getD 31 0) with
            | none => none
            | some i1 =>
            match hexVal (value.getD 32 0) with
            | none => none
            | some j0 =>
            match hexVal (value.getD 33 0) with
            | none => none
            | some j1 =>
            match hexVal (value.getD 34 0) with
            | none => none
            | some k0 =>
            match hexVal (value.getD 35 0) with
            | none => none
            | some k1 =>
            some (Guid.from_values a b c
              [d, e, f0 * 16 + f1, g0 * 16 + g1, h0 * 16 + h1,
               i0 * 16 + i1, j0 * 16 + j1, k0 * 16 + k1])
          else none
        else none
      else none
    else none
  else none

/-- The uppercase hex digit character (ASCII byte) of a nibble, as produced
by Rust's `{:X?}` formatting. -/
def hexDigitChar (n : Nat) : Nat := if n < 10 then 48 + n else 55 + n

/-- Fixed-width zero-padded uppercase hex rendering (Rust `{:0wX?}`), as
ASCII bytes, most significant nibble first. -/
def toHex (width n : Nat) : List Nat :=
  (List.range width).map (fun i => hexDigitChar ((n >>> (4 * (width - 1 - i))) % 16))

/-- `impl std::fmt::Debug for Guid`: the 36-character hyphenated uppercase
rendering, as ASCII bytes. -/
def Guid.format (g : Guid) : List Nat :=
  toHex 8 g.data1 ++ [45] ++ toHex 4 g.data2 ++ [45] ++ toHex 4 g.data3 ++ [45] ++
  toHex 2 (g.data4.getD 0 0) ++ toHex 2 (g.data4.getD 1 0) ++ [45] ++
  toHex 2 (g.data4.getD 2 0) ++ toHex 2 (g.data4.getD 3 0) ++
  toHex 2 (g.data4.getD 4 0) ++ toHex 2 (g.data4.getD 5 0) ++
  toHex 2 (g.data4.getD 6 0) ++ toHex 2 (g.data4.getD 7 0)

/-- The field ranges of the Rust representation: `u32`, `u16`, `u16` and
eight bytes. -/
def Guid.wf (g : Guid) : Bool :=
  decide (g.data1 < 4294967296) && decide (g.data2 < 65536) &&
  decide (g.data3 < 65536) && decide (g.data4.length = 8) &&
  g.data4.all (fun b => decide (b < 256))

/-- Whether one ASCII byte is a hexadecimal digit (`0`-`9`, `A`-`F`, `a`-`f`). -/
def isHexDigit (b : Nat) : Bool :=
  decide (48 ≤ b ∧ b ≤ 57) || decide (65 ≤ b ∧ b ≤ 70) || decide (97 ≤ b ∧ b ≤ 102)

/-- The 32 positions of a 36-character GUID string that hold hex digits. -/
def hexPositions : List Nat :=
  [0, 1, 2, 3, 4, 5, 6, 7, 9, 10, 11, 12, 14, 15, 16, 17,
   19, 20, 21, 22, 24, 25, 26, 27, 28, 29, 30, 31, 32, 33, 34, 35]

/-- The well-formed GUID strings: exactly 36 characters, hyphens at
positions 8, 13, 18 and 23, and hex digits at the other 32 positions. -/
def goodGuidString (l : List Nat) : Bool :=
  decide (l.length = 36) && decide (l.getD 8 0 = 45) && decide (l.getD 13 0 = 45) &&
  decide (l.getD 18 0 = 45) && decide (l.getD 23 0 = 45) &&
  hexPositions.all (fun i => isHexDigit (l.getD i 0))

/-- The hex value of a digit byte, defaulting to `0` on a non-digit. -/
def hexValD (b : Nat) : Nat := (hexVal b).getD 0

/-- The field grouping described by the spec: within each field, hex digits
are taken in big-endian order, `data4` as eight byte pairs. -/
def groupFields (l : List Nat) : Guid :=
  Guid.from_values
    (hexValD (l.getD 0 0) * 16 ^ 7 + hexValD (l.getD 1 0) * 16 ^ 6 +
     hexValD (l.getD 2 0) * 16 ^ 5 + hexValD (l.getD 3 0) * 16 ^ 4 +
     hexValD (l.getD 4 0) * 16 ^ 3 + hexValD (l.getD 5 0) * 16 ^ 2 +
     hexValD (l.getD 6 0) * 16 + hexValD (l.getD 7 0))
    (hexValD (l.getD 9 0) * 16 ^ 3 + hexValD (l.getD 10 0) * 16 ^ 2 +
     hexValD (l.getD 11 0) * 16 + hexValD (l.getD 12 0))
    (hexValD (l.getD 14 0) * 16 ^ 3 + hexValD (l.getD 15 0) * 16 ^ 2 +
     hexValD (l.getD 16 0) * 16 + hexValD (l.getD 17 0))
    [hexValD (l.getD 19 0) * 16 + hexValD (l.getD 20 0),
     hexValD (l.getD 21 0) * 16 + hexValD (l.getD 22 0),
     hexValD (l.getD 24 0) * 16 + hexValD (l.getD 25 0),
     hexValD (l.getD 26 0) * 16 + hexValD (l.getD 27 0),
     hexValD (l.getD 28 0) * 16 + hexValD (l.getD 29 0),
     hexValD (l.getD 30 0) * 16 + hexValD (l.getD 31 0),
     hexValD (l.getD 32 0) * 16 + hexValD (l.getD 33 0),
     hexValD (l.getD 34 0) * 16 + hexValD (l.getD 35 0)]

/-- Uppercase normalization of one ASCII byte: lowercase hex letters `a`-`f`
map to `A`-`F`, all other bytes are unchanged. -/
def upperHexByte (b : Nat) : Nat := if 97 ≤ b ∧ b ≤ 102 then b - 32 else b

/-- Byte `i` of the 20-byte digest read as five big-endian 32-bit words. -/
def digestByte (h : Sha1Digest) (i : Nat) : Nat :=
  (toBeBytes32 (h.word (i / 4))).getD (i % 4) 0

/-- Whether one byte of a pair is the same hex letter as the other up to
case: equal, or an `A`-`F` letter against its lowercase form. -/
def hexCaseEq (b c : Nat) : Bool :=
  decide (b = c) || (decide (65 ≤ b ∧ b ≤ 70) && decide (c = b + 32)) ||
  (decide (65 ≤ c ∧ c ≤ 70) && decide (b = c + 32))

/-! ## Helper lemmas -/

/-- Bitwise or with a multiple of `2 ^ i` is addition when the other operand
fits in `i` bits. -/
theorem lor_mul_pow_add {x i : Nat} (a : Nat) (h : x < 2 ^ i) :
    x ||| 2 ^ i * a = 2 ^ i * a + x := by
  rw [Nat.or_comm, ← Nat.mul_add_lt_is_or h a]

/-- The `data3` post-processing of `from_signature`: the top nibble becomes 5,
the low twelve bits survive, and the result is a `u16`. -/
theorem data3_markers (x : Nat) :
    ((x &&& 0x0fff) ||| (5 <<< 12)) >>> 12 = 5 ∧
    ((x &&& 0x0fff) ||| (5 <<< 12)) % 4096 = x % 4096 ∧
    ((x &&& 0x0fff) ||| (5 <<< 12)) < 65536 := by
  have h1 : (0x0fff : Nat) = 2 ^ 12 - 1 := by norm_num
  have h2 : (5 <<< 12 : Nat) = 2 ^ 12 * 5 := by rw [Nat.shiftLeft_eq]; ring
  have hx : x % 2 ^ 12 < 2 ^ 12 := Nat.mod_lt _ (by norm_num)
  rw [h1, Nat.and_pow_two_sub_one_eq_mod, h2, lor_mul_pow_add 5 hx,
    Nat.shiftRight_eq_div_pow]
  refine ⟨?_, ?_, ?_⟩ <;> · norm_num; omega

/-- The `data4[0]` post-processing of `from_signature`: the top two bits
become `10`, and the result is a byte. -/
theorem data4_markers (x : Nat) :
    ((x &&& 0x3f) ||| 0x80) >>> 6 = 2 ∧ ((x &&& 0x3f) ||| 0x80) < 256 := by
  have h1 : (0x3f : Nat) = 2 ^ 6 - 1 := by norm_num
  have h2 : (0x80 : Nat) = 2 ^ 6 * 2 := by norm_num
  have hx : x % 2 ^ 6 < 2 ^ 6 := Nat.mod_lt _ (by norm_num)
  rw [h1, Nat.and_pow_two_sub_one_eq_mod, h2, lor_mul_pow_add 2 hx,
    Nat.shiftRight_eq_div_pow]
  refine ⟨?_, ?_⟩ <;> · norm_num; omega

/-- All five digest words lie below `2 ^ 32`. -/
def Sha1Digest.bounded (h : Sha1Digest) : Prop :=
  h.h0 < w32 ∧ h.h1 < w32 ∧ h.h2 < w32 ∧ h.h3 < w32 ∧ h.h4 < w32

theorem processBlock_bounded (h : Sha1Digest) (block : List Nat) :
    (processBlock h block).bounded := by
  have hw : 0 < w32 := by norm_num [w32]
  exact ⟨Nat.mod_lt _ hw, Nat.mod_lt _ hw, Nat.mod_lt _ hw, Nat.mod_lt _ hw,
    Nat.mod_lt _ hw⟩

theorem sha1Blocks_bounded :
    ∀ (n : Nat) (h : Sha1Digest) (l : List Nat), h.bounded →
      (sha1Blocks n h l).bounded
  | 0, _, _, hb => hb
  | n + 1, h, l, _ =>
    sha1Blocks_bounded n (processBlock h (l.take 64)) (l.drop 64)
      (processBlock_bounded h (l.take 64))

theorem sha1_bounded (msg : List Nat) : (sha1 msg).bounded := by
  apply sha1Blocks_bounded
  refine ⟨?_, ?_, ?_, ?_, ?_⟩ <;> norm_num [w32]

/-! ## Claim theorems (first group) -/

/-- C10: obtaining the raw ABI representation by value (`get_abi`) returns
the `Guid` value itself with zero transformation, leaving it unchanged. -/
theorem get_abi_identity (g : Guid) : Guid.get_abi g = g := rfl

/-- C8: `zeroed()` has all four fields zero, and formatting it yields exactly
the ASCII bytes of the 36-character string
`00000000-0000-0000-0000-000000000000`. -/
theorem zeroed_format :
    Guid.zeroed.data1 = 0 ∧ Guid.zeroed.data2 = 0 ∧ Guid.zeroed.data3 = 0 ∧
    Guid.zeroed.data4 = [0, 0, 0, 0, 0, 0, 0, 0] ∧
    Guid.format Guid.zeroed =
      [48, 48, 48, 48, 48, 48, 48, 48, 45, 48, 48, 48, 48, 45,
       48, 48, 48, 48, 45, 48, 48, 48, 48, 45, 48, 48, 48, 48,
       48, 48, 48, 48, 48, 48, 48, 48] := by
  refine ⟨rfl, rfl, rfl, rfl, ?_⟩
  decide

/-- C2: for every non-empty signature, `data1` of the derived GUID is the
first signature byte itself (zero-extended to 32 bits), not a value derived
from the hash digest. -/
theorem from_signature_data1 (s : List Nat) (h : s ≠ []) :
    (Guid.from_signature s).data1 = s.headD 0 := by
  cases s with
  | nil => exact absurd rfl h
  | cons b t => rfl

/-- Witness for C2 at the concrete signature `[7, 3]`. -/
theorem from_signature_data1_spot :
    (Guid.from_signature [7, 3]).data1 = 7 :=
  from_signature_data1 [7, 3] (by simp)

/-- C5: every derived GUID carries the version marker: the top nibble of
`data3` is `0x5` and the top two bits of `data4[0]` are `0b10`. -/
theorem from_signature_markers (s : List Nat) :
    (Guid.from_signature s).data3 >>> 12 = 5 ∧
    (Guid.from_signature s).data4.getD 0 0 >>> 6 = 2 :=
  ⟨(data3_markers _).1, (data4_markers _).1⟩

/-- C1: `from_signature` hashes the 16-byte namespace constant followed by
the signature and extracts: `data2` from digest bytes 4-5 (big-endian), the
low 12 bits of `data3` from digest bytes 6-7, `data4[0..4]` from digest
bytes 8-11 with the variant mask on byte 8, and `data4[4..8]` from digest
bytes 12-15 unmodified. -/
theorem from_signature_digest_extraction (s : List Nat) :
    namespaceBytes =
      [0x11, 0xf4, 0x7a, 0xd5, 0x7b, 0x73, 0x42, 0xc0,
       0xab, 0xae, 0x87, 0x8b, 0x1e, 0x16, 0xad, 0xee] ∧
    (Guid.from_signature s).data2 =
      u16FromBe (digestByte (sha1 (namespaceBytes ++ s)) 4)
        (digestByte (sha1 (namespaceBytes ++ s)) 5) ∧
    (Guid.from_signature s).data3 % 4096 =
      u16FromBe (digestByte (sha1 (namespaceBytes ++ s)) 6)
        (digestByte (sha1 (namespaceBytes ++ s)) 7) % 4096 ∧
    (Guid.from_signature s).data4.getD 0 0 =
      ((digestByte (sha1 (namespaceBytes ++ s)) 8) &&& 0x3f) ||| 0x80 ∧
    (Guid.from_signature s).data4.getD 1 0 =
      digestByte (sha1 (namespaceBytes ++ s)) 9 ∧
    (Guid.from_signature s).data4.getD 2 0 =
      digestByte (sha1 (namespaceBytes ++ s)) 10 ∧
    (Guid.from_signature s).data4.getD 3 0 =
      digestByte (sha1 (namespaceBytes ++ s)) 11 ∧
    (Guid.from_signature s).data4.getD 4 0 =
      digestByte (sha1 (namespaceBytes ++ s)) 12 ∧
    (Guid.from_signature s).data4.getD 5 0 =
      digestByte (sha1 (namespaceBytes ++ s)) 13 ∧
    (Guid.from_signature s).data4.getD 6 0 =
      digestByte (sha1 (namespaceBytes ++ s)) 14 ∧
    (Guid.from_signature s).data4.getD 7 0 =
      digestByte (sha1 (namespaceBytes ++ s)) 15 :=
  ⟨rfl, rfl, (data3_markers _).2.1, rfl, rfl, rfl, rfl, rfl, rfl, rfl, rfl⟩

/-- C6: `from_signature` is total: every byte sequence (the empty one
included) is accepted, and the result is a `Guid` within the
representation's field ranges (`u32`, `u16`, `u16`, eight bytes). -/
theorem from_signature_total (s : List Nat) (hs : ∀ b ∈ s, b < 256) :
    Guid.wf (Guid.from_signature s) = true := by
  have hd1 : constStringGet s 0 < 4294967296 := by
    cases s with
    | nil => norm_num [constStringGet]
    | cons b t =>
      exact lt_trans (hs b (List.mem_cons_self b t)) (by norm_num)
  simp only [Guid.wf, Guid.from_signature, Guid.from_values, toBeBytes32,
    u16FromBe, List.getD_cons_zero, List.getD_cons_succ, List.all_cons,
    List.all_nil, Bool.and_eq_true, decide_eq_true_eq, List.length_cons,
    List.length_nil]
  and_intros <;>
    first
      | trivial
      | exact hd1
      | exact (data3_markers _).2.2
      | exact (data4_markers _).2
      | omega

/-- Witness for C6 at the empty signature. -/
theorem from_signature_total_spot :
    Guid.wf (Guid.from_signature []) = true :=
  from_signature_total [] (by simp)

/-- A byte that is not a hex digit makes `next_u8` fail. -/
theorem hexVal_none_isHexDigit {b : Nat} (h : hexVal b = none) :
    isHexDigit b = false := by
  unfold hexVal at h
  unfold isHexDigit
  split_ifs at h
  all_goals simp_all

/-- A successful `next_u8` read means the byte was a hex digit. -/
theorem isHexDigit_of_hexVal {b a : Nat} (h : hexVal b = some a) :
    isHexDigit b = true := by
  unfold hexVal at h
  unfold isHexDigit
  split_ifs at h <;> simp_all

/-- A successful `next_u8` read produces a nibble. -/
theorem hexVal_lt {b a : Nat} (h : hexVal b = some a) : a < 16 := by
  unfold hexVal at h
  split_ifs at h <;> (simp_all; try omega)

/-- The defaulted hex value always lies below 16. -/
theorem hexValD_lt (b : Nat) : hexValD b < 16 := by
  unfold hexValD hexVal
  split_ifs <;> (simp [Option.getD]; try omega)

/-- The defaulted hex value agrees with a successful read. -/
theorem hexValD_of_some {b a : Nat} (h : hexVal b = some a) : hexValD b = a := by
  unfold hexValD
  rw [h]
  rfl

/-- Characterization of `Guid.parse`: it succeeds exactly on the
well-formed GUID strings and produces the spec's field grouping. -/
theorem parse_eq (l : List Nat) :
    Guid.parse l = if goodGuidString l = true then some (groupFields l) else none := by
  by_cases hl : l.length = 36
  case neg => simp [Guid.parse, goodGuidString, hl]
  unfold Guid.parse
  rw [if_pos hl]
  rcases hp0 : hexVal (l.getD 0 0) with _ | a0
  · simp only [hl, hp0, hexVal_none_isHexDigit hp0, goodGuidString, hexPositions,
      List.all_cons, List.all_nil, Bool.and_eq_true, decide_eq_true_eq, Bool.false_eq_true,
      false_and, and_false, true_and, and_true, eq_self_iff_true, if_false, if_true]
  rcases hp1 : hexVal (l.getD 1 0) with _ | a1
  · simp only [hl, hp0, hp1, hexVal_none_isHexDigit hp1, goodGuidString, hexPositions,
      List.all_cons, List.all_nil, Bool.and_eq_true, decide_eq_true_eq, Bool.false_eq_true,
      false_and, and_false, true_and, and_true, eq_self_iff_true, if_false, if_true]
  rcases hp2 : hexVal (l.getD 2 0) with _ | a2
  · simp only [hl, hp0, hp1, hp2, hexVal_none_isHexDigit hp2, goodGuidString, hexPositions,
      List.all_cons, List.all_nil, Bool.and_eq_true, decide_eq_true_eq, Bool.false_eq_true,
      false_and, and_false, true_and, and_true, eq_self_iff_true, if_false, if_true]
  rcases hp3 : hexVal (l.getD 3 0) with _ | a3
  · simp only [hl, hp0, hp1, hp2, hp3, hexVal_none_isHexDigit hp3, goodGuidString,
      hexPositions, List.all_cons, List.all_nil, Bool.and_eq_true, decide_eq_true_eq,
      Bool.false_eq_true, false_and, and_false, true_and, and_true, eq_self_iff_true, if_false,
      if_true]
  rcases hp4 : hexVal (l.getD 4 0) with _ | a4
  · simp only [hl, hp0, hp1, hp2, hp3, hp4, hexVal_none_isHexDigit hp4, goodGuidString,
      hexPositions, List.all_cons, List.all_nil, Bool.and_eq_true, decide_eq_true_eq,
      Bool.false_eq_true, false_and, and_false, true_and, and_true, eq_self_iff_true, if_false,
      if_true]
  rcases hp5 : hexVal (l.getD 5 0) with _ | a5
  · simp only [hl, hp0, hp1, hp2, hp3, hp4, hp5, hexVal_none_isHexDigit hp5, goodGuidString,
      hexPositions, List.all_cons, List.all_nil, Bool.and_eq_true, decide_eq_true_eq,
      Bool.false_eq_true, false_and, and_false, true_and, and_true, eq_self_iff_true, if_false,
      if_true]
  rcases hp6 : hexVal (l.getD 6 0) with _ | a6
  · simp only [hl, hp0, hp1, hp2, hp3, hp4, hp5, hp6, hexVal_none_isHexDigit hp6,
      goodGuidString, hexPositions, List.all_cons, List.all_nil, Bool.and_eq_true,
      decide_eq_true_eq, Bool.false_eq_true, false_and, and_false, true_and, and_true,
      eq_self_iff_true, if_false, if_true]
  rcases hp7 : hexVal (l.getD 7 0) with _ | a7
  · simp only [hl, hp0, hp1, hp2, hp3, hp4, hp5, hp6, hp7, hexVal_none_isHexDigit hp7,
      goodGuidString, hexPositions, List.all_cons, List.all_nil, Bool.and_eq_true,
      decide_eq_true_eq, Bool.false_eq_true, false_and, and_false, true_and, and_true,
      eq_self_iff_true, if_false, if_true]
  by_cases hs8 : l.getD 8 0 = 45
  case neg => simp only [hl, hp0, hp1, hp2, hp3, hp4, hp5, hp6, hp7, hs8, goodGuidString,
      hexPositions, List.all_cons, List.all_nil, Bool.and_eq_true, decide_eq_true_eq,
      Bool.false_eq_true, false_and, and_false, true_and, and_true, eq_self_iff_true, if_false,
      if_true]
  rcases hp9 : hexVal (l.getD 9 0) with _ | b0
  · simp only [hl, hp0, hp1, hp2, hp3, hp4, hp5, hp6, hp7, hs8, hp9,
      hexVal_none_isHexDigit hp9, goodGuidString, hexPositions, List.all_cons, List.all_nil,
      Bool.and_eq_true, decide_eq_true_eq, Bool.false_eq_true, false_and, and_false, true_and,
      and_true, eq_self_iff_true, if_false, if_true]
  rcases hp10 : hexVal (l.getD 10 0) with _ | b1
  · simp only [hl, hp0, hp1, hp2, hp3, hp4, hp5, hp6, hp7, hs8, hp9, hp10,
      hexVal_none_isHexDigit hp10, goodGuidString, hexPositions, List.all_cons, List.all_nil,
      Bool.and_eq_true, decide_eq_true_eq, Bool.false_eq_true, false_and, and_false, true_and,
      and_true, eq_self_iff_true, if_false, if_true]
  rcases hp11 : hexVal (l.getD 11 0) with _ | b2
  · simp only [hl, hp0, hp1, hp2, hp3, hp4, hp5, hp6, hp7, hs8, hp9, hp10, hp11,
      hexVal_none_isHexDigit hp11, goodGuidString, hexPositions, List.all_cons, List.all_nil,
      Bool.and_eq_true, decide_eq_true_eq, Bool.false_eq_true, false_and, and_false, true_and,
      and_true, eq_self_iff_true, if_false, if_true]
  rcases hp12 : hexVal (l.getD 12 0) with _ | b3
  · simp only [hl, hp0, hp1, hp2, hp3, hp4, hp5, hp6, hp7, hs8, hp9, hp10, hp11, hp12,
      hexVal_none_isHexDigit hp12, goodGuidString, hexPositions, List.all_cons, List.all_nil,
      Bool.and_eq_true, decide_eq_true_eq, Bool.false_eq_true, false_and, and_false, true_and,
      and_true, eq_self_iff_true, if_false, if_true]
  by_cases hs13 : l.getD 13 0 = 45
  case neg => simp only [hl, hp0, hp1, hp2, hp3, hp4, hp5, hp6, hp7, hs8, hp9, hp10, hp11,
      hp12, hs13, goodGuidString, hexPositions, List.all_cons, List.all_nil, Bool.and_eq_true,
      decide_eq_true_eq, Bool.false_eq_true, false_and, and_false, true_and, and_true,
      eq_self_iff_true, if_false, if_true]
  rcases hp14 : hexVal (l.getD 14 0) with _ | c0
  · simp only [hl, hp0, hp1, hp2, hp3, hp4, hp5, hp6, hp7, hs8, hp9, hp10, hp11, hp12, hs13,
      hp14, hexVal_none_isHexDigit hp14, goodGuidString, hexPositions, List.all_cons,
      List.all_nil, Bool.and_eq_true, decide_eq_true_eq, Bool.false_eq_true, false_and,
      and_false, true_and, and_true, eq_self_iff_true, if_false, if_true]
  rcases hp15 : hexVal (l.getD 15 0) with _ | c1
  · simp only [hl, hp0, hp1, hp2, hp3, hp4, hp5, hp6, hp7, hs8, hp9, hp10, hp11, hp12, hs13,
      hp14, hp15, hexVal_none_isHexDigit hp15, goodGuidString, hexPositions, List.all_cons,
      List.all_nil, Bool.and_eq_true, decide_eq_true_eq, Bool.false_eq_true, false_and,
      and_false, true_and, and_true, eq_self_iff_true, if_false, if_true]
  rcases hp16 : hexVal (l.getD 16 0) with _ | c2
  · simp only [hl, hp0, hp1, hp2, hp3, hp4, hp5, hp6, hp7, hs8, hp9, hp10, hp11, hp12, hs13,
      hp14, hp15, hp16, hexVal_none_isHexDigit hp16, goodGuidString, hexPositions,
      List.all_cons, List.all_nil, Bool.and_eq_true, decide_eq_true_eq, Bool.false_eq_true,
      false_and, and_false, true_and, and_true, eq_self_iff_true, if_false, if_true]
  rcases hp17 : hexVal (l.getD 17 0) with _ | c3
  · simp only [hl, hp0, hp1, hp2, hp3, hp4, hp5, hp6, hp7, hs8, hp9, hp10, hp11, hp12, hs13,
      hp14, hp15, hp16, hp17, hexVal_none_isHexDigit hp17, goodGuidString, hexPositions,
      List.all_cons, List.all_nil, Bool.and_eq_true, decide_eq_true_eq, Bool.false_eq_true,
      false_and, and_false, true_and, and_true, eq_self_iff_true, if_false, if_true]
  by_cases hs18 : l.getD 18 0 = 45
  case neg => simp only [hl, hp0, hp1, hp2, hp3, hp4, hp5, hp6, hp7, hs8, hp9, hp10, hp11,
      hp12, hs13, hp14, hp15, hp16, hp17, hs18, goodGuidString, hexPositions, List.all_cons,
      List.all_nil, Bool.and_eq_true, decide_eq_true_eq, Bool.false_eq_true, false_and,
      and_false, true_and, and_true, eq_self_iff_true, if_false, if_true]
  rcases hp19 : hexVal (l.getD 19 0) with _ | d0
  · simp only [hl, hp0, hp1, hp2, hp3, hp4, hp5, hp6, hp7, hs8, hp9, hp10, hp11, hp12, hs13,
      hp14, hp15, hp16, hp17, hs18, hp19, hexVal_none_isHexDigit hp19, goodGuidString,
      hexPositions, List.all_cons, List.all_nil, Bool.and_eq_true, decide_eq_true_eq,
      Bool.false_eq_true, false_and, and_false, true_and, and_true, eq_self_iff_true, if_false,
      if_true]
  rcases hp20 : hexVal (l.getD 20 0) with _ | d1
  · simp only [hl, hp0, hp1, hp2, hp3, hp4, hp5, hp6, hp7, hs8, hp9, hp10, hp11, hp12, hs13,
      hp14, hp15, hp16, hp17, hs18, hp19, hp20, hexVal_none_isHexDigit hp20, goodGuidString,
      hexPositions, List.all_cons, List.all_nil, Bool.and_eq_true, decide_eq_true_eq,
      Bool.false_eq_true, false_and, and_false, true_and, and_true, eq_self_iff_true, if_false,
      if_true]
  rcases hp21 : hexVal (l.getD 21 0) with _ | e0
  · simp only [hl, hp0, hp1, hp2, hp3, hp4, hp5, hp6, hp7, hs8, hp9, hp10, hp11, hp12, hs13,
      hp14, hp15, hp16, hp17, hs18, hp19, hp20, hp21, hexVal_none_isHexDigit hp21,
      goodGuidString, hexPositions, List.all_cons, List.all_nil, Bool.and_eq_true,
      decide_eq_true_eq, Bool.false_eq_true, false_and, and_false, true_and, and_true,
      eq_self_iff_true, if_false, if_true]
  rcases hp22 : hexVal (l.getD 22 0) with _ | e1
  · simp only [hl, hp0, hp1, hp2, hp3, hp4, hp5, hp6, hp7, hs8, hp9, hp10, hp11, hp12, hs13,
      hp14, hp15, hp16, hp17, hs18, hp19, hp20, hp21, hp22, hexVal_none_isHexDigit hp22,
      goodGuidString, hexPositions, List.all_cons, List.all_nil, Bool.and_eq_true,
      decide_eq_true_eq, Bool.false_eq_true, false_and, and_false, true_and, and_true,
      eq_self_iff_true, if_false, if_true]
  by_cases hs23 : l.getD 23 0 = 45
  case neg => simp only [hl, hp0, hp1, hp2, hp3, hp4, hp5, hp6, hp7, hs8, hp9, hp10, hp11,
      hp12, hs13, hp14, hp15, hp16, hp17, hs18, hp19, hp20, hp21, hp22, hs23, goodGuidString,
      hexPositions, List.all_cons, List.all_nil, Bool.and_eq_true, decide_eq_true_eq,
      Bool.false_eq_true, false_and, and_false, true_and, and_true, eq_self_iff_true, if_false,
      if_true]
  rcases hp24 : hexVal (l.getD 24 0) with _ | f0
  · simp only [hl, hp0, hp1, hp2, hp3, hp4, hp5, hp6, hp7, hs8, hp9, hp10, hp11, hp12, hs13,
      hp14, hp15, hp16, hp17, hs18, hp19, hp20, hp21, hp22, hs23, hp24,
      hexVal_none_isHexDigit hp24, goodGuidString, hexPositions, List.all_cons, List.all_nil,
      Bool.and_eq_true, decide_eq_true_eq, Bool.false_eq_true, false_and, and_false, true_and,
      and_true, eq_self_iff_true, if_false, if_true]
  rcases hp25 : hexVal (l.getD 25 0) with _ | f1
  · simp only [hl, hp0, hp1, hp2, hp3, hp4, hp5, hp6, hp7, hs8, hp9, hp10, hp11, hp12, hs13,
      hp14, hp15, hp16, hp17, hs18, hp19, hp20, hp21, hp22, hs23, hp24, hp25,
      hexVal_none_isHexDigit hp25, goodGuidString, hexPositions, List.all_cons, List.all_nil,
      Bool.and_eq_true, decide_eq_true_eq, Bool.false_eq_true, false_and, and_false, true_and,
      and_true, eq_self_iff_true, if_false, if_true]
  rcases hp26 : hexVal (l.getD 26 0) with _ | g0
  · simp only [hl, hp0, hp1, hp2, hp3, hp4, hp5, hp6, hp7, hs8, hp9, hp10, hp11, hp12, hs13,
      hp14, hp15, hp16, hp17, hs18, hp19, hp20, hp21, hp22, hs23, hp24, hp25, hp26,
      hexVal_none_isHexDigit hp26, goodGuidString, hexPositions, List.all_cons, List.all_nil,
      Bool.and_eq_true, decide_eq_true_eq, Bool.false_eq_true, false_and, and_false, true_and,
      and_true, eq_self_iff_true, if_false, if_true]
  rcases hp27 : hexVal (l.getD 27 0) with _ | g1
  · simp only [hl, hp0, hp1, hp2, hp3, hp4, hp5, hp6, hp7, hs8, hp9, hp10, hp11, hp12, hs13,
      hp14, hp15, hp16, hp17, hs18, hp19, hp20, hp21, hp22, hs23, hp24, hp25, hp26, hp27,
      hexVal_none_isHexDigit hp27, goodGuidString, hexPositions, List.all_cons, List.all_nil,
      Bool.and_eq_true, decide_eq_true_eq, Bool.false_eq_true, false_and, and_false, true_and,
      and_true, eq_self_iff_true, if_false, if_true]
  rcases hp28 : hexVal (l.getD 28 0) with _ | h0
  · simp only [hl, hp0, hp1, hp2, hp3, hp4, hp5, hp6, hp7, hs8, hp9, hp10, hp11, hp12, hs13,
      hp14, hp15, hp16, hp17, hs18, hp19, hp20, hp21, hp22, hs23, hp24, hp25, hp26, hp27, hp28,
      hexVal_none_isHexDigit hp28, goodGuidString, hexPositions, List.all_cons, List.all_nil,
      Bool.and_eq_true, decide_eq_true_eq, Bool.false_eq_true, false_and, and_false, true_and,
      and_true, eq_self_iff_true, if_false, if_true]
  rcases hp29 : hexVal (l.getD 29 0) with _ | h1
  · simp only [hl, hp0, hp1, hp2, hp3, hp4, hp5, hp6, hp7, hs8, hp9, hp10, hp11, hp12, hs13,
      hp14, hp15, hp16, hp17, hs18, hp19, hp20, hp21, hp22, hs23, hp24, hp25, hp26, hp27, hp28,
      hp29, hexVal_none_isHexDigit hp29, goodGuidString, hexPositions, List.all_cons,
      List.all_nil, Bool.and_eq_true, decide_eq_true_eq, Bool.false_eq_true, false_and,
      and_false, true_and, and_true, eq_self_iff_true, if_false, if_true]
  rcases hp30 : hexVal (l.getD 30 0) with _ | i0
  · simp only [hl, hp0, hp1, hp2, hp3, hp4, hp5, hp6, hp7, hs8, hp9, hp10, hp11, hp12, hs13,
      hp14, hp15, hp16, hp17, hs18, hp19, hp20, hp21, hp22, hs23, hp24, hp25, hp26, hp27, hp28,
      hp29, hp30, hexVal_none_isHexDigit hp30, goodGuidString, hexPositions, List.all_cons,
      List.all_nil, Bool.and_eq_true, decide_eq_true_eq, Bool.false_eq_true, false_and,
      and_false, true_and, and_true, eq_self_iff_true, if_false, if_true]
  rcases hp31 : hexVal (l.getD 31 0) with _ | i1
  · simp only [hl, hp0, hp1, hp2, hp3, hp4, hp5, hp6, hp7, hs8, hp9, hp10, hp11, hp12, hs13,
      hp14, hp15, hp16, hp17, hs18, hp19, hp20, hp21, hp22, hs23, hp24, hp25, hp26, hp27, hp28,
      hp29, hp30, hp31, hexVal_none_isHexDigit hp31, goodGuidString, hexPositions,
      List.all_cons, List.all_nil, Bool.and_eq_true, decide_eq_true_eq, Bool.false_eq_true,
      false_and, and_false, true_and, and_true, eq_self_iff_true, if_false, if_true]
  rcases hp32 : hexVal (l.getD 32 0) with _ | j0
  · simp only [hl, hp0, hp1, hp2, hp3, hp4, hp5, hp6, hp7, hs8, hp9, hp10, hp11, hp12, hs13,
      hp14, hp15, hp16, hp17, hs18, hp19, hp20, hp21, hp22, hs23, hp24, hp25, hp26, hp27, hp28,
      hp29, hp30, hp31, hp32, hexVal_none_isHexDigit hp32, goodGuidString, hexPositions,
      List.all_cons, List.all_nil, Bool.and_eq_true, decide_eq_true_eq, Bool.false_eq_true,
      false_and, and_false, true_and, and_true, eq_self_iff_true, if_false, if_true]
  rcases hp33 : hexVal (l.getD 33 0) with _ | j1
  · simp only [hl, hp0, hp1, hp2, hp3, hp4, hp5, hp6, hp7, hs8, hp9, hp10, hp11, hp12, hs13,
      hp14, hp15, hp16, hp17, hs18, hp19, hp20, hp21, hp22, hs23, hp24, hp25, hp26, hp27, hp28,
      hp29, hp30, hp31, hp32, hp33, hexVal_none_isHexDigit hp33, goodGuidString, hexPositions,
      List.all_cons, List.all_nil, Bool.and_eq_true, decide_eq_true_eq, Bool.false_eq_true,
      false_and, and_false, true_and, and_true, eq_self_iff_true, if_false, if_true]
  rcases hp34 : hexVal (l.getD 34 0) with _ | k0
  · simp only [hl, hp0, hp1, hp2, hp3, hp4, hp5, hp6, hp7, hs8, hp9, hp10, hp11, hp12, hs13,
      hp14, hp15, hp16, hp17, hs18, hp19, hp20, hp21, hp22, hs23, hp24, hp25, hp26, hp27, hp28,
      hp29, hp30, hp31, hp32, hp33, hp34, hexVal_none_isHexDigit hp34, goodGuidString,
      hexPositions, List.all_cons, List.all_nil, Bool.and_eq_true, decide_eq_true_eq,
      Bool.false_eq_true, false_and, and_false, true_and, and_true, eq_self_iff_true, if_false,
      if_true]
  rcases hp35 : hexVal (l.getD 35 0) with _ | k1
  · simp only [hl, hp0, hp1, hp2, hp3, hp4, hp5, hp6, hp7, hs8, hp9, hp10, hp11, hp12, hs13,
      hp14, hp15, hp16, hp17, hs18, hp19, hp20, hp21, hp22, hs23, hp24, hp25, hp26, hp27, hp28,
      hp29, hp30, hp31, hp32, hp33, hp34, hp35, hexVal_none_isHexDigit hp35, goodGuidString,
      hexPositions, List.all_cons, List.all_nil, Bool.and_eq_true, decide_eq_true_eq,
      Bool.false_eq_true, false_and, and_false, true_and, and_true, eq_self_iff_true, if_false,
      if_true]
  have hgood : goodGuidString l = true := by
    simp only [hl, hs8, hs13, hs18, hs23, goodGuidString, hexPositions, List.all_cons,
      List.all_nil, Bool.and_eq_true, decide_eq_true_eq, Bool.false_eq_true, false_and,
      and_false, true_and, and_true, eq_self_iff_true, if_false, if_true,
      isHexDigit_of_hexVal hp0, isHexDigit_of_hexVal hp1, isHexDigit_of_hexVal hp2,
      isHexDigit_of_hexVal hp3, isHexDigit_of_hexVal hp4, isHexDigit_of_hexVal hp5,
      isHexDigit_of_hexVal hp6, isHexDigit_of_hexVal hp7, isHexDigit_of_hexVal hp9,
      isHexDigit_of_hexVal hp10, isHexDigit_of_hexVal hp11, isHexDigit_of_hexVal hp12,
      isHexDigit_of_hexVal hp14, isHexDigit_of_hexVal hp15, isHexDigit_of_hexVal hp16,
      isHexDigit_of_hexVal hp17, isHexDigit_of_hexVal hp19, isHexDigit_of_hexVal hp20,
      isHexDigit_of_hexVal hp21, isHexDigit_of_hexVal hp22, isHexDigit_of_hexVal hp24,
      isHexDigit_of_hexVal hp25, isHexDigit_of_hexVal hp26, isHexDigit_of_hexVal hp27,
      isHexDigit_of_hexVal hp28, isHexDigit_of_hexVal hp29, isHexDigit_of_hexVal hp30,
      isHexDigit_of_hexVal hp31, isHexDigit_of_hexVal hp32, isHexDigit_of_hexVal hp33,
      isHexDigit_of_hexVal hp34, isHexDigit_of_hexVal hp35]
  rw [if_pos hgood]
  simp only [hl, hp0, hp1, hp2, hp3, hp4, hp5, hp6, hp7, hs8, hp9, hp10, hp11, hp12, hs13,
    hp14, hp15, hp16, hp17, hs18, hp19, hp20, hp21, hp22, hs23, hp24, hp25, hp26, hp27, hp28,
    hp29, hp30, hp31, hp32, hp33, hp34, hp35, groupFields, Guid.from_values,
    hexValD_of_some hp0, hexValD_of_some hp1, hexValD_of_some hp2, hexValD_of_some hp3,
    hexValD_of_some hp4, hexValD_of_some hp5, hexValD_of_some hp6, hexValD_of_some hp7,
    hexValD_of_some hp9, hexValD_of_some hp10, hexValD_of_some hp11, hexValD_of_some hp12,
    hexValD_of_some hp14, hexValD_of_some hp15, hexValD_of_some hp16, hexValD_of_some hp17,
    hexValD_of_some hp19, hexValD_of_some hp20, hexValD_of_some hp21, hexValD_of_some hp22,
    hexValD_of_some hp24, hexValD_of_some hp25, hexValD_of_some hp26, hexValD_of_some hp27,
    hexValD_of_some hp28, hexValD_of_some hp29, hexValD_of_some hp30, hexValD_of_some hp31,
    hexValD_of_some hp32, hexValD_of_some hp33, hexValD_of_some hp34, hexValD_of_some hp35,
    eq_self_iff_true, if_true, Option.some.injEq, Guid.mk.injEq, List.cons.injEq,
    Nat.shiftLeft_eq, and_true]
  and_intros <;> ring

/-- C3: parsing fails, producing no result at all, exactly when the input is
not 36 characters long, lacks a hyphen at one of positions 8, 13, 18, 23,
or holds a non-hex character at one of the other 32 positions; on every
other 36-character input it succeeds, grouping hex digit pairs big-endian
within each field. -/
theorem parse_fail_iff (l : List Nat) :
    (Guid.parse l = none ↔ goodGuidString l = false) ∧
    (goodGuidString l = true → Guid.parse l = some (groupFields l)) := by
  constructor
  · rw [parse_eq]
    rcases h : goodGuidString l <;> simp
  · intro h
    rw [parse_eq, if_pos h]

/-- Witness for C3 at the all-zero GUID string. -/
theorem parse_fail_iff_spot :
    Guid.parse
      [48, 48, 48, 48, 48, 48, 48, 48, 45, 48, 48, 48, 48, 45,
       48, 48, 48, 48, 45, 48, 48, 48, 48, 45, 48, 48, 48, 48,
       48, 48, 48, 48, 48, 48, 48, 48] =
    some (groupFields
      [48, 48, 48, 48, 48, 48, 48, 48, 45, 48, 48, 48, 48, 45,
       48, 48, 48, 48, 45, 48, 48, 48, 48, 45, 48, 48, 48, 48,
       48, 48, 48, 48, 48, 48, 48, 48]) :=
  (parse_fail_iff _).2 (by decide)

/-- Formatting emits hex digit characters. -/
theorem isHexDigit_hexDigitChar (x : Nat) :
    isHexDigit (hexDigitChar (x % 16)) = true := by
  have h : x % 16 < 16 := Nat.mod_lt _ (by norm_num)
  unfold hexDigitChar isHexDigit
  split_ifs <;> (try simp) <;> omega

/-- Reading back a formatted nibble returns the nibble. -/
theorem hexVal_hexDigitChar (x : Nat) :
    hexVal (hexDigitChar (x % 16)) = some (x % 16) := by
  have h : x % 16 < 16 := Nat.mod_lt _ (by norm_num)
  unfold hexVal hexDigitChar
  split_ifs <;> (try simp) <;> omega

/-- Defaulted variant of `hexVal_hexDigitChar`. -/
theorem hexValD_hexDigitChar (x : Nat) : hexValD (hexDigitChar (x % 16)) = x % 16 := by
  rw [hexValD, hexVal_hexDigitChar]
  rfl

set_option maxHeartbeats 2000000 in
/-- C4: formatting any well-formed `Guid` value and parsing the text back
returns exactly the original value. -/
theorem parse_format_roundtrip (g : Guid) (h : Guid.wf g = true) :
    Guid.parse (Guid.format g) = some g := by
  obtain ⟨d1, d2, d3, d4⟩ := g
  simp only [Guid.wf, Bool.and_eq_true, decide_eq_true_eq] at h
  obtain ⟨⟨⟨⟨h1, h2⟩, h3⟩, hlen⟩, hall⟩ := h
  rcases d4 with _ | ⟨b0, d4⟩; · simp at hlen
  rcases d4 with _ | ⟨b1, d4⟩; · simp at hlen
  rcases d4 with _ | ⟨b2, d4⟩; · simp at hlen
  rcases d4 with _ | ⟨b3, d4⟩; · simp at hlen
  rcases d4 with _ | ⟨b4, d4⟩; · simp at hlen
  rcases d4 with _ | ⟨b5, d4⟩; · simp at hlen
  rcases d4 with _ | ⟨b6, d4⟩; · simp at hlen
  rcases d4 with _ | ⟨b7, d4⟩; · simp at hlen
  rcases d4 with _ | ⟨b8, d4⟩
  case cons => simp at hlen
  simp only [List.all_cons, List.all_nil, Bool.and_eq_true, decide_eq_true_eq,
    and_true] at hall
  obtain ⟨hb0, hb1, hb2, hb3, hb4, hb5, hb6, hb7⟩ := hall
  have hf : Guid.format (Guid.mk d1 d2 d3 [b0, b1, b2, b3, b4, b5, b6, b7]) =
      [hexDigitChar ((d1 >>> 28) % 16), hexDigitChar ((d1 >>> 24) % 16),
       hexDigitChar ((d1 >>> 20) % 16), hexDigitChar ((d1 >>> 16) % 16),
       hexDigitChar ((d1 >>> 12) % 16), hexDigitChar ((d1 >>> 8) % 16),
       hexDigitChar ((d1 >>> 4) % 16), hexDigitChar ((d1 >>> 0) % 16), 45,
       hexDigitChar ((d2 >>> 12) % 16), hexDigitChar ((d2 >>> 8) % 16),
       hexDigitChar ((d2 >>> 4) % 16), hexDigitChar ((d2 >>> 0) % 16), 45,
       hexDigitChar ((d3 >>> 12) % 16), hexDigitChar ((d3 >>> 8) % 16),
       hexDigitChar ((d3 >>> 4) % 16), hexDigitChar ((d3 >>> 0) % 16), 45,
       hexDigitChar ((b0 >>> 4) % 16), hexDigitChar (b0 % 16),
       hexDigitChar ((b1 >>> 4) % 16), hexDigitChar (b1 % 16), 45,
       hexDigitChar ((b2 >>> 4) % 16), hexDigitChar (b2 % 16),
       hexDigitChar ((b3 >>> 4) % 16), hexDigitChar (b3 % 16),
       hexDigitChar ((b4 >>> 4) % 16), hexDigitChar (b4 % 16),
       hexDigitChar ((b5 >>> 4) % 16), hexDigitChar (b5 % 16),
       hexDigitChar ((b6 >>> 4) % 16), hexDigitChar (b6 % 16),
       hexDigitChar ((b7 >>> 4) % 16), hexDigitChar (b7 % 16)] := rfl
  rw [parse_eq, hf]
  have hgood : goodGuidString
      [hexDigitChar ((d1 >>> 28) % 16), hexDigitChar ((d1 >>> 24) % 16),
       hexDigitChar ((d1 >>> 20) % 16), hexDigitChar ((d1 >>> 16) % 16),
       hexDigitChar ((d1 >>> 12) % 16), hexDigitChar ((d1 >>> 8) % 16),
       hexDigitChar ((d1 >>> 4) % 16), hexDigitChar ((d1 >>> 0) % 16), 45,
       hexDigitChar ((d2 >>> 12) % 16), hexDigitChar ((d2 >>> 8) % 16),
       hexDigitChar ((d2 >>> 4) % 16), hexDigitChar ((d2 >>> 0) % 16), 45,
       hexDigitChar ((d3 >>> 12) % 16), hexDigitChar ((d3 >>> 8) % 16),
       hexDigitChar ((d3 >>> 4) % 16), hexDigitChar ((d3 >>> 0) % 16), 45,
       hexDigitChar ((b0 >>> 4) % 16), hexDigitChar (b0 % 16),
       hexDigitChar ((b1 >>> 4) % 16), hexDigitChar (b1 % 16), 45,
       hexDigitChar ((b2 >>> 4) % 16), hexDigitChar (b2 % 16),
       hexDigitChar ((b3 >>> 4) % 16), hexDigitChar (b3 % 16),
       hexDigitChar ((b4 >>> 4) % 16), hexDigitChar (b4 % 16),
       hexDigitChar ((b5 >>> 4) % 16), hexDigitChar (b5 % 16),
       hexDigitChar ((b6 >>> 4) % 16), hexDigitChar (b6 % 16),
       hexDigitChar ((b7 >>> 4) % 16), hexDigitChar (b7 % 16)] = true := by
    simp [goodGuidString, hexPositions, isHexDigit_hexDigitChar]
  rw [if_pos hgood]
  have hgf : groupFields
      [hexDigitChar ((d1 >>> 28) % 16), hexDigitChar ((d1 >>> 24) % 16),
       hexDigitChar ((d1 >>> 20) % 16), hexDigitChar ((d1 >>> 16) % 16),
       hexDigitChar ((d1 >>> 12) % 16), hexDigitChar ((d1 >>> 8) % 16),
       hexDigitChar ((d1 >>> 4) % 16), hexDigitChar ((d1 >>> 0) % 16), 45,
       hexDigitChar ((d2 >>> 12) % 16), hexDigitChar ((d2 >>> 8) % 16),
       hexDigitChar ((d2 >>> 4) % 16), hexDigitChar ((d2 >>> 0) % 16), 45,
       hexDigitChar ((d3 >>> 12) % 16), hexDigitChar ((d3 >>> 8) % 16),
       hexDigitChar ((d3 >>> 4) % 16), hexDigitChar ((d3 >>> 0) % 16), 45,
       hexDigitChar ((b0 >>> 4) % 16), hexDigitChar (b0 % 16),
       hexDigitChar ((b1 >>> 4) % 16), hexDigitChar (b1 % 16), 45,
       hexDigitChar ((b2 >>> 4) % 16), hexDigitChar (b2 % 16),
       hexDigitChar ((b3 >>> 4) % 16), hexDigitChar (b3 % 16),
       hexDigitChar ((b4 >>> 4) % 16), hexDigitChar (b4 % 16),
       hexDigitChar ((b5 >>> 4) % 16), hexDigitChar (b5 % 16),
       hexDigitChar ((b6 >>> 4) % 16), hexDigitChar (b6 % 16),
       hexDigitChar ((b7 >>> 4) % 16), hexDigitChar (b7 % 16)] = Guid.mk d1 d2 d3 [b0, b1, b2, b3, b4, b5, b6, b7] := by
    simp only [groupFields, Guid.from_values, List.getD_cons_zero,
      List.getD_cons_succ, hexValD_hexDigitChar, Guid.mk.injEq,
      List.cons.injEq, and_true]
    simp only [Nat.shiftRight_eq_div_pow]
    and_intros <;> omega
  rw [hgf]

/-- Witness for C4 at a concrete value. -/
theorem parse_format_roundtrip_spot :
    Guid.parse (Guid.format (Guid.mk 305419896 43981 57005
      [1, 35, 69, 103, 137, 171, 205, 239])) =
    some (Guid.mk 305419896 43981 57005 [1, 35, 69, 103, 137, 171, 205, 239]) :=
  parse_format_roundtrip _ (by decide)


/-- Expansion of the 8-digit hex rendering. -/
theorem toHex8_expand (n : Nat) : toHex 8 n =
    [hexDigitChar ((n >>> 28) % 16), hexDigitChar ((n >>> 24) % 16),
     hexDigitChar ((n >>> 20) % 16), hexDigitChar ((n >>> 16) % 16),
     hexDigitChar ((n >>> 12) % 16), hexDigitChar ((n >>> 8) % 16),
     hexDigitChar ((n >>> 4) % 16), hexDigitChar ((n >>> 0) % 16)] := rfl

/-- Expansion of the 4-digit hex rendering. -/
theorem toHex4_expand (n : Nat) : toHex 4 n =
    [hexDigitChar ((n >>> 12) % 16), hexDigitChar ((n >>> 8) % 16),
     hexDigitChar ((n >>> 4) % 16), hexDigitChar ((n >>> 0) % 16)] := rfl

/-- Expansion of the 2-digit hex rendering. -/
theorem toHex2_expand (n : Nat) : toHex 2 n =
    [hexDigitChar ((n >>> 4) % 16), hexDigitChar ((n >>> 0) % 16)] := rfl

/-- Rendering an 8-nibble assembly yields the eight digit characters. -/
theorem toHex8_digits {h0 h1 h2 h3 h4 h5 h6 h7 : Nat} (b0 : h0 < 16)
    (b1 : h1 < 16) (b2 : h2 < 16) (b3 : h3 < 16) (b4 : h4 < 16) (b5 : h5 < 16)
    (b6 : h6 < 16) (b7 : h7 < 16) :
    toHex 8 (h0 * 16 ^ 7 + h1 * 16 ^ 6 + h2 * 16 ^ 5 + h3 * 16 ^ 4 +
      h4 * 16 ^ 3 + h5 * 16 ^ 2 + h6 * 16 + h7) =
    [hexDigitChar h0, hexDigitChar h1, hexDigitChar h2, hexDigitChar h3,
     hexDigitChar h4, hexDigitChar h5, hexDigitChar h6, hexDigitChar h7] := by
  rw [toHex8_expand]
  simp only [List.cons.injEq, and_true]
  and_intros <;>
    exact congrArg hexDigitChar (by simp only [Nat.shiftRight_eq_div_pow]; omega)

/-- Rendering a 4-nibble assembly yields the four digit characters. -/
theorem toHex4_digits {h0 h1 h2 h3 : Nat} (b0 : h0 < 16) (b1 : h1 < 16)
    (b2 : h2 < 16) (b3 : h3 < 16) :
    toHex 4 (h0 * 16 ^ 3 + h1 * 16 ^ 2 + h2 * 16 + h3) =
    [hexDigitChar h0, hexDigitChar h1, hexDigitChar h2, hexDigitChar h3] := by
  rw [toHex4_expand]
  simp only [List.cons.injEq, and_true]
  and_intros <;>
    exact congrArg hexDigitChar (by simp only [Nat.shiftRight_eq_div_pow]; omega)

/-- Rendering a 2-nibble assembly yields the two digit characters. -/
theorem toHex2_digits {h0 h1 : Nat} (b0 : h0 < 16) (b1 : h1 < 16) :
    toHex 2 (h0 * 16 + h1) = [hexDigitChar h0, hexDigitChar h1] := by
  rw [toHex2_expand]
  simp only [List.cons.injEq, and_true]
  and_intros <;>
    exact congrArg hexDigitChar (by simp only [Nat.shiftRight_eq_div_pow]; omega)

/-- The digit character of a hex digit's value is its uppercase form. -/
theorem hexDigitChar_upper {b : Nat} (h : isHexDigit b = true) :
    hexDigitChar (hexValD b) = upperHexByte b := by
  simp only [isHexDigit, Bool.or_eq_true, decide_eq_true_eq] at h
  unfold hexValD hexVal hexDigitChar upperHexByte
  split_ifs <;> (try simp_all) <;> omega

/-- The hyphen is untouched by uppercasing. -/
theorem upperHexByte_hyphen : upperHexByte 45 = 45 := by decide

/-- A well-formed GUID string has exactly 36 characters. -/
theorem good_length {l : List Nat} (h : goodGuidString l = true) :
    l.length = 36 := by
  unfold goodGuidString at h
  simp only [Bool.and_eq_true, decide_eq_true_eq] at h
  exact h.1.1.1.1.1

/-- Case-equivalent bytes read as the same hex value. -/
theorem hexCaseEq_hexVal {b c : Nat} (h : hexCaseEq b c = true) :
    hexVal b = hexVal c := by
  simp only [hexCaseEq, Bool.or_eq_true, Bool.and_eq_true, decide_eq_true_eq] at h
  unfold hexVal
  split_ifs <;> (try simp_all) <;> omega

/-- Case-equivalence preserves the hyphen. -/
theorem hexCaseEq_hyphen {b c : Nat} (h : hexCaseEq b c = true) (hb : b = 45) :
    c = 45 := by
  simp only [hexCaseEq, Bool.or_eq_true, Bool.and_eq_true, decide_eq_true_eq] at h
  omega

/-- Being a hex digit is the same as `next_u8` succeeding. -/
theorem isHexDigit_eq_isSome (b : Nat) : isHexDigit b = (hexVal b).isSome := by
  unfold isHexDigit hexVal
  split_ifs <;> simp_all
/-- Eliminator for byte strings of length 36. -/
theorem list36_elim (P : List Nat → Prop)
    (H : ∀ c0 c1 c2 c3 c4 c5 c6 c7 c8 c9 c10 c11 c12 c13 c14 c15 c16 c17 c18 c19 c20 c21 c22
      c23 c24 c25 c26 c27 c28 c29 c30 c31 c32 c33 c34 c35 : Nat,
      P [c0, c1, c2, c3, c4, c5, c6, c7, c8, c9, c10, c11, c12, c13, c14, c15, c16, c17, c18,
         c19, c20, c21, c22, c23, c24, c25, c26, c27, c28, c29, c30, c31, c32, c33, c34,
         c35]) :
    ∀ l : List Nat, l.length = 36 → P l := by
  intro l hl
  rcases l with _ | ⟨c0, l⟩
  · simp only [List.length_nil] at hl; omega
  rcases l with _ | ⟨c1, l⟩
  · simp only [List.length_cons, List.length_nil] at hl; omega
  rcases l with _ | ⟨c2, l⟩
  · simp only [List.length_cons, List.length_nil] at hl; omega
  rcases l with _ | ⟨c3, l⟩
  · simp only [List.length_cons, List.length_nil] at hl; omega
  rcases l with _ | ⟨c4, l⟩
  · simp only [List.length_cons, List.length_nil] at hl; omega
  rcases l with _ | ⟨c5, l⟩
  · simp only [List.length_cons, List.length_nil] at hl; omega
  rcases l with _ | ⟨c6, l⟩
  · simp only [List.length_cons, List.length_nil] at hl; omega
  rcases l with _ | ⟨c7, l⟩
  · simp only [List.length_cons, List.length_nil] at hl; omega
  rcases l with _ | ⟨c8, l⟩
  · simp only [List.length_cons, List.length_nil] at hl; omega
  rcases l with _ | ⟨c9, l⟩
  · simp only [List.length_cons, List.length_nil] at hl; omega
  rcases l with _ | ⟨c10, l⟩
  · simp only [List.length_cons, List.length_nil] at hl; omega
  rcases l with _ | ⟨c11, l⟩
  · simp only [List.length_cons, List.length_nil] at hl; omega
  rcases l with _ | ⟨c12, l⟩
  · simp only [List.length_cons, List.length_nil] at hl; omega
  rcases l with _ | ⟨c13, l⟩
  · simp only [List.length_cons, List.length_nil] at hl; omega
  rcases l with _ | ⟨c14, l⟩
  · simp only [List.length_cons, List.length_nil] at hl; omega
  rcases l with _ | ⟨c15, l⟩
  · simp only [List.length_cons, List.length_nil] at hl; omega
  rcases l with _ | ⟨c16, l⟩
  · simp only [List.length_cons, List.length_nil] at hl; omega
  rcases l with _ | ⟨c17, l⟩
  · simp only [List.length_cons, List.length_nil] at hl; omega
  rcases l with _ | ⟨c18, l⟩
  · simp only [List.length_cons, List.length_nil] at hl; omega
  rcases l with _ | ⟨c19, l⟩
  · simp only [List.length_cons, List.length_nil] at hl; omega
  rcases l with _ | ⟨c20, l⟩
  · simp only [List.length_cons, List.length_nil] at hl; omega
  rcases l with _ | ⟨c21, l⟩
  · simp only [List.length_cons, List.length_nil] at hl; omega
  rcases l with _ | ⟨c22, l⟩
  · simp only [List.length_cons, List.length_nil] at hl; omega
  rcases l with _ | ⟨c23, l⟩
  · simp only [List.length_cons, List.length_nil] at hl; omega
  rcases l with _ | ⟨c24, l⟩
  · simp only [List.length_cons, List.length_nil] at hl; omega
  rcases l with _ | ⟨c25, l⟩
  · simp only [List.length_cons, List.length_nil] at hl; omega
  rcases l with _ | ⟨c26, l⟩
  · simp only [List.length_cons, List.length_nil] at hl; omega
  rcases l with _ | ⟨c27, l⟩
  · simp only [List.length_cons, List.length_nil] at hl; omega
  rcases l with _ | ⟨c28, l⟩
  · simp only [List.length_cons, List.length_nil] at hl; omega
  rcases l with _ | ⟨c29, l⟩
  · simp only [List.length_cons, List.length_nil] at hl; omega
  rcases l with _ | ⟨c30, l⟩
  · simp only [List.length_cons, List.length_nil] at hl; omega
  rcases l with _ | ⟨c31, l⟩
  · simp only [List.length_cons, List.length_nil] at hl; omega
  rcases l with _ | ⟨c32, l⟩
  · simp only [List.length_cons, List.length_nil] at hl; omega
  rcases l with _ | ⟨c33, l⟩
  · simp only [List.length_cons, List.length_nil] at hl; omega
  rcases l with _ | ⟨c34, l⟩
  · simp only [List.length_cons, List.length_nil] at hl; omega
  rcases l with _ | ⟨c35, l⟩
  · simp only [List.length_cons, List.length_nil] at hl; omega
  rcases l with _ | ⟨c36, l⟩
  · exact H c0 c1 c2 c3 c4 c5 c6 c7 c8 c9 c10 c11 c12 c13 c14 c15 c16 c17 c18 c19 c20 c21 c22
      c23 c24 c25 c26 c27 c28 c29 c30 c31 c32 c33 c34 c35
  · simp only [List.length_cons, List.length_nil] at hl
    omega

/-- On any well-formed GUID string, formatting the grouped fields
uppercases the string. -/
theorem format_groupFields36 :
    ∀ c0 c1 c2 c3 c4 c5 c6 c7 c8 c9 c10 c11 c12 c13 c14 c15 c16 c17 c18 c19 c20 c21 c22 c23
      c24 c25 c26 c27 c28 c29 c30 c31 c32 c33 c34 c35 : Nat,
      goodGuidString [c0, c1, c2, c3, c4, c5, c6, c7, c8, c9, c10, c11, c12, c13, c14, c15,
        c16, c17, c18, c19, c20, c21, c22, c23, c24, c25, c26, c27, c28, c29, c30, c31, c32,
        c33, c34, c35] = true →
      Guid.format (groupFields [c0, c1, c2, c3, c4, c5, c6, c7, c8, c9, c10, c11, c12, c13,
        c14, c15, c16, c17, c18, c19, c20, c21, c22, c23, c24, c25, c26, c27, c28, c29, c30,
        c31, c32, c33, c34, c35]) =
      List.map upperHexByte [c0, c1, c2, c3, c4, c5, c6, c7, c8, c9, c10, c11, c12, c13, c14,
        c15, c16, c17, c18, c19, c20, c21, c22, c23, c24, c25, c26, c27, c28, c29, c30, c31,
        c32, c33, c34, c35] := by
  intro c0 c1 c2 c3 c4 c5 c6 c7 c8 c9 c10 c11 c12 c13 c14 c15 c16 c17 c18 c19 c20 c21 c22 c23
    c24 c25 c26 c27 c28 c29 c30 c31 c32 c33 c34 c35 hgood
  simp only [goodGuidString, hexPositions, List.all_cons, List.all_nil,
    List.getD_cons_zero, List.getD_cons_succ, List.length_cons,
    List.length_nil, Bool.and_eq_true, decide_eq_true_eq, and_true] at hgood
  obtain
    ⟨⟨⟨⟨⟨-, hy8⟩, hy13⟩, hy18⟩, hy23⟩, hx0, hx1, hx2, hx3, hx4, hx5, hx6, hx7, hx9, hx10, hx11, hx12, hx14, hx15, hx16, hx17, hx19, hx20, hx21, hx22, hx24, hx25, hx26, hx27, hx28, hx29, hx30, hx31, hx32, hx33, hx34, hx35⟩ := hgood
  subst hy8 hy13 hy18 hy23
  have hgf : groupFields [c0, c1, c2, c3, c4, c5, c6, c7, 45, c9, c10, c11, c12, 45, c14,
      c15, c16, c17, 45, c19, c20, c21, c22, 45, c24, c25, c26, c27, c28, c29, c30, c31, c32,
      c33, c34, c35] =
      Guid.mk (hexValD c0 * 16 ^ 7 + hexValD c1 * 16 ^ 6 + hexValD c2 * 16 ^ 5 +
        hexValD c3 * 16 ^ 4 + hexValD c4 * 16 ^ 3 + hexValD c5 * 16 ^ 2 + hexValD c6 * 16 +
        hexValD c7)
        (hexValD c9 * 16 ^ 3 + hexValD c10 * 16 ^ 2 + hexValD c11 * 16 + hexValD c12)
        (hexValD c14 * 16 ^ 3 + hexValD c15 * 16 ^ 2 + hexValD c16 * 16 + hexValD c17)
        [hexValD c19 * 16 + hexValD c20, hexValD c21 * 16 + hexValD c22,
         hexValD c24 * 16 + hexValD c25, hexValD c26 * 16 + hexValD c27,
         hexValD c28 * 16 + hexValD c29, hexValD c30 * 16 + hexValD c31,
         hexValD c32 * 16 + hexValD c33, hexValD c34 * 16 + hexValD c35] := rfl
  rw [hgf]
  unfold Guid.format
  simp only [List.getD_cons_zero, List.getD_cons_succ]
  rw [
    toHex8_digits (hexValD_lt c0) (hexValD_lt c1) (hexValD_lt c2) (hexValD_lt c3) (hexValD_lt c4) (hexValD_lt c5) (hexValD_lt c6) (hexValD_lt c7),
    toHex4_digits (hexValD_lt c9) (hexValD_lt c10) (hexValD_lt c11) (hexValD_lt c12),
    toHex4_digits (hexValD_lt c14) (hexValD_lt c15) (hexValD_lt c16) (hexValD_lt c17),
    toHex2_digits (hexValD_lt c19) (hexValD_lt c20),
    toHex2_digits (hexValD_lt c21) (hexValD_lt c22),
    toHex2_digits (hexValD_lt c24) (hexValD_lt c25),
    toHex2_digits (hexValD_lt c26) (hexValD_lt c27),
    toHex2_digits (hexValD_lt c28) (hexValD_lt c29),
    toHex2_digits (hexValD_lt c30) (hexValD_lt c31),
    toHex2_digits (hexValD_lt c32) (hexValD_lt c33),
    toHex2_digits (hexValD_lt c34) (hexValD_lt c35)]
  simp only [List.cons_append, List.nil_append, List.map_cons, List.map_nil,
    upperHexByte_hyphen, hexDigitChar_upper hx0, hexDigitChar_upper hx1,
    hexDigitChar_upper hx2, hexDigitChar_upper hx3, hexDigitChar_upper hx4,
    hexDigitChar_upper hx5, hexDigitChar_upper hx6, hexDigitChar_upper hx7,
    hexDigitChar_upper hx9, hexDigitChar_upper hx10, hexDigitChar_upper hx11,
    hexDigitChar_upper hx12, hexDigitChar_upper hx14, hexDigitChar_upper hx15,
    hexDigitChar_upper hx16, hexDigitChar_upper hx17, hexDigitChar_upper hx19,
    hexDigitChar_upper hx20, hexDigitChar_upper hx21, hexDigitChar_upper hx22,
    hexDigitChar_upper hx24, hexDigitChar_upper hx25, hexDigitChar_upper hx26,
    hexDigitChar_upper hx27, hexDigitChar_upper hx28, hexDigitChar_upper hx29,
    hexDigitChar_upper hx30, hexDigitChar_upper hx31, hexDigitChar_upper hx32,
    hexDigitChar_upper hx33, hexDigitChar_upper hx34, hexDigitChar_upper hx35]


/-- Case-equivalence preserves being a hex digit. -/
theorem isHexDigit_of_caseEq {b c : Nat} (h : hexCaseEq b c = true)
    (hb : isHexDigit b = true) : isHexDigit c = true := by
  rw [isHexDigit_eq_isSome, ← hexCaseEq_hexVal h, ← isHexDigit_eq_isSome]
  exact hb

/-- C9: on every accepted input, formatting the parsed value reproduces
the input exactly, with its hexadecimal letters uppercased: format is
the inverse of parse up to letter case. -/
theorem format_parse_upper (l : List Nat) (g : Guid)
    (h : Guid.parse l = some g) :
    Guid.format g = l.map upperHexByte := by
  rw [parse_eq] at h
  by_cases hg : goodGuidString l = true
  case neg =>
    rw [if_neg hg] at h
    exact absurd h (by simp)
  rw [if_pos hg] at h
  have hgf : groupFields l = g := by injection h
  subst hgf
  exact list36_elim
    (fun t => goodGuidString t = true →
      Guid.format (groupFields t) = t.map upperHexByte)
    format_groupFields36 l (good_length hg) hg

/-- Witness for C9 at the all-zero GUID string. -/
theorem format_parse_upper_spot :
    Guid.format (Guid.mk 0 0 0 [0, 0, 0, 0, 0, 0, 0, 0]) =
      List.map upperHexByte [48, 48, 48, 48, 48, 48, 48, 48, 45, 48, 48, 48, 48, 45, 48, 48,
        48, 48, 45, 48, 48, 48, 48, 45, 48, 48, 48, 48, 48, 48, 48, 48, 48, 48, 48, 48] :=
  format_parse_upper _ _ (by decide)

/-- C7: parsing is case-insensitive in its hex digits: a string that
agrees with a valid GUID string up to the case of hexadecimal letters
parses to the same value. -/
theorem parse_case_insensitive (l1 l2 : List Nat)
    (hlen : l1.length = l2.length)
    (hcase : ∀ i, i < 36 → hexCaseEq (l1.getD i 0) (l2.getD i 0) = true)
    (hgood : goodGuidString l1 = true) :
    Guid.parse l1 = Guid.parse l2 ∧ ∃ g, Guid.parse l1 = some g := by
  have hlen1 : l1.length = 36 := good_length hgood
  have hgood2 : goodGuidString l2 = true := by
    unfold goodGuidString at hgood ⊢
    simp only [hexPositions, List.all_cons, List.all_nil, Bool.and_eq_true,
      decide_eq_true_eq, and_true] at hgood ⊢
    obtain
      ⟨⟨⟨⟨⟨-, hy8⟩, hy13⟩, hy18⟩, hy23⟩, hx0, hx1, hx2, hx3, hx4, hx5, hx6, hx7, hx9, hx10, hx11, hx12, hx14, hx15, hx16, hx17, hx19, hx20, hx21, hx22, hx24, hx25, hx26, hx27, hx28, hx29, hx30, hx31, hx32, hx33, hx34, hx35⟩ := hgood
    refine ⟨⟨⟨⟨⟨by omega, hexCaseEq_hyphen (hcase 8 (by norm_num)) hy8⟩,
      hexCaseEq_hyphen (hcase 13 (by norm_num)) hy13⟩,
      hexCaseEq_hyphen (hcase 18 (by norm_num)) hy18⟩,
      hexCaseEq_hyphen (hcase 23 (by norm_num)) hy23⟩,
      isHexDigit_of_caseEq (hcase 0 (by norm_num)) hx0,
      isHexDigit_of_caseEq (hcase 1 (by norm_num)) hx1,
      isHexDigit_of_caseEq (hcase 2 (by norm_num)) hx2,
      isHexDigit_of_caseEq (hcase 3 (by norm_num)) hx3,
      isHexDigit_of_caseEq (hcase 4 (by norm_num)) hx4,
      isHexDigit_of_caseEq (hcase 5 (by norm_num)) hx5,
      isHexDigit_of_caseEq (hcase 6 (by norm_num)) hx6,
      isHexDigit_of_caseEq (hcase 7 (by norm_num)) hx7,
      isHexDigit_of_caseEq (hcase 9 (by norm_num)) hx9,
      isHexDigit_of_caseEq (hcase 10 (by norm_num)) hx10,
      isHexDigit_of_caseEq (hcase 11 (by norm_num)) hx11,
      isHexDigit_of_caseEq (hcase 12 (by norm_num)) hx12,
      isHexDigit_of_caseEq (hcase 14 (by norm_num)) hx14,
      isHexDigit_of_caseEq (hcase 15 (by norm_num)) hx15,
      isHexDigit_of_caseEq (hcase 16 (by norm_num)) hx16,
      isHexDigit_of_caseEq (hcase 17 (by norm_num)) hx17,
      isHexDigit_of_caseEq (hcase 19 (by norm_num)) hx19,
      isHexDigit_of_caseEq (hcase 20 (by norm_num)) hx20,
      isHexDigit_of_caseEq (hcase 21 (by norm_num)) hx21,
      isHexDigit_of_caseEq (hcase 22 (by norm_num)) hx22,
      isHexDigit_of_caseEq (hcase 24 (by norm_num)) hx24,
      isHexDigit_of_caseEq (hcase 25 (by norm_num)) hx25,
      isHexDigit_of_caseEq (hcase 26 (by norm_num)) hx26,
      isHexDigit_of_caseEq (hcase 27 (by norm_num)) hx27,
      isHexDigit_of_caseEq (hcase 28 (by norm_num)) hx28,
      isHexDigit_of_caseEq (hcase 29 (by norm_num)) hx29,
      isHexDigit_of_caseEq (hcase 30 (by norm_num)) hx30,
      isHexDigit_of_caseEq (hcase 31 (by norm_num)) hx31,
      isHexDigit_of_caseEq (hcase 32 (by norm_num)) hx32,
      isHexDigit_of_caseEq (hcase 33 (by norm_num)) hx33,
      isHexDigit_of_caseEq (hcase 34 (by norm_num)) hx34,
      isHexDigit_of_caseEq (hcase 35 (by norm_num)) hx35⟩
  have hgf : groupFields l2 = groupFields l1 := by
    unfold groupFields hexValD
    simp only [hexCaseEq_hexVal (hcase 0 (by norm_num)),
      hexCaseEq_hexVal (hcase 1 (by norm_num)), hexCaseEq_hexVal (hcase 2 (by norm_num)),
      hexCaseEq_hexVal (hcase 3 (by norm_num)), hexCaseEq_hexVal (hcase 4 (by norm_num)),
      hexCaseEq_hexVal (hcase 5 (by norm_num)), hexCaseEq_hexVal (hcase 6 (by norm_num)),
      hexCaseEq_hexVal (hcase 7 (by norm_num)), hexCaseEq_hexVal (hcase 9 (by norm_num)),
      hexCaseEq_hexVal (hcase 10 (by norm_num)), hexCaseEq_hexVal (hcase 11 (by norm_num)),
      hexCaseEq_hexVal (hcase 12 (by norm_num)), hexCaseEq_hexVal (hcase 14 (by norm_num)),
      hexCaseEq_hexVal (hcase 15 (by norm_num)), hexCaseEq_hexVal (hcase 16 (by norm_num)),
      hexCaseEq_hexVal (hcase 17 (by norm_num)), hexCaseEq_hexVal (hcase 19 (by norm_num)),
      hexCaseEq_hexVal (hcase 20 (by norm_num)), hexCaseEq_hexVal (hcase 21 (by norm_num)),
      hexCaseEq_hexVal (hcase 22 (by norm_num)), hexCaseEq_hexVal (hcase 24 (by norm_num)),
      hexCaseEq_hexVal (hcase 25 (by norm_num)), hexCaseEq_hexVal (hcase 26 (by norm_num)),
      hexCaseEq_hexVal (hcase 27 (by norm_num)), hexCaseEq_hexVal (hcase 28 (by norm_num)),
      hexCaseEq_hexVal (hcase 29 (by norm_num)), hexCaseEq_hexVal (hcase 30 (by norm_num)),
      hexCaseEq_hexVal (hcase 31 (by norm_num)), hexCaseEq_hexVal (hcase 32 (by norm_num)),
      hexCaseEq_hexVal (hcase 33 (by norm_num)), hexCaseEq_hexVal (hcase 34 (by norm_num)),
      hexCaseEq_hexVal (hcase 35 (by norm_num))]
  refine ⟨?_, groupFields l1, ?_⟩
  · rw [parse_eq, parse_eq, if_pos hgood, if_pos hgood2, hgf]
  · rw [parse_eq, if_pos hgood]

/-- Witness for C7: `ABCDEF00-...` against `abcdef00-...`. -/
theorem parse_case_insensitive_spot :
    Guid.parse [65, 66, 67, 68, 69, 70, 48, 48, 45, 48, 48, 48, 48, 45, 48, 48, 48, 48, 45,
      48, 48, 48, 48, 45, 48, 48, 48, 48, 48, 48, 48, 48, 48, 48, 48, 48] =
      Guid.parse [97, 98, 99, 100, 101, 102, 48, 48, 45, 48, 48, 48, 48, 45, 48, 48, 48, 48,
        45, 48, 48, 48, 48, 45, 48, 48, 48, 48, 48, 48, 48, 48, 48, 48, 48, 48] ∧
    ∃ g, Guid.parse [65, 66, 67, 68, 69, 70, 48, 48, 45, 48, 48, 48, 48, 45, 48, 48, 48, 48,
      45, 48, 48, 48, 48, 45, 48, 48, 48, 48, 48, 48, 48, 48, 48, 48, 48, 48] = some g :=
  parse_case_insensitive _ _ (by decide) (by decide) (by decide)
